import Mathlib

/-!
Verification development for `robot/output/listeners.py`: the listener
event-notification layer of the Robot Framework test-execution engine.

The Python module is shallowly embedded below.  Pure helpers become Lean
functions; the mutable fields of the `Listeners` class (`_listeners`,
`_running_test`, `_setup_or_teardown_type`, and the `_recursion` flag
installed by the `no_recursion` class decorator) become an explicit state
record that every notification operation threads.  Calls made to listener
methods and records sent to the run-wide logger are collected in an output
trace.  External collaborators (the `Importer` loader, `LOGGER`,
`get_error_details`, `AbstractLoggerProxy` method binding, and the listener
objects themselves) are modelled as oracles supplied in the inputs, exactly
as the specification describes their interfaces.
-/

set_option maxHeartbeats 1000000

/-- Severity of a record sent to the run-wide logger (`LOGGER.error` /
`LOGGER.info`). -/
inductive Level where
  | error
  | info
deriving DecidableEq, Repr

/-- One record sent to the run-wide logger. -/
structure LogEntry where
  level : Level
  text : String
deriving DecidableEq, Repr

/-- The Python exception kinds that matter for this module. -/
inductive PyExc where
  | attributeError
  | valueError
  | typeError
deriving DecidableEq, Repr

/-- A Python value that may appear as a listener's
`ROBOT_LISTENER_API_VERSION` attribute: an integer, a string, or `None`. -/
inductive PyVal where
  | int (n : Int)
  | str (s : String)
  | pyNone
deriving DecidableEq, Repr

/-- Accumulate the value of a run of decimal digits; `none` as soon as a
non-digit appears. -/
def parseDigitsAux (acc : Nat) : List Char → Option Nat
  | [] => some acc
  | c :: rest =>
      if c.isDigit then parseDigitsAux (acc * 10 + (c.toNat - '0'.toNat)) rest
      else none

/-- A non-empty all-digit character list, as a number. -/
def parseDigits : List Char → Option Nat
  | [] => none
  | l => parseDigitsAux 0 l

/-- Python `int(str)` on the string shapes in scope: an optional sign
followed by at least one decimal digit; anything else raises `ValueError`. -/
def pyParseInt (s : String) : Option Int :=
  match s.data with
  | '-' :: rest => (parseDigits rest).map (fun n => -(n : Int))
  | '+' :: rest => (parseDigits rest).map (fun n => (n : Int))
  | l => (parseDigits l).map (fun n => (n : Int))

/-- The Python builtin `int(...)` conversion on the values in scope:
identity on integers, decimal parsing on strings (`ValueError` on
non-numeric strings), `TypeError` on `None`. -/
def pyIntOf : PyVal → Except PyExc Int
  | .int n => .ok n
  | .str s =>
      match pyParseInt s with
      | some n => .ok n
      | none => .error .valueError
  | .pyNone => .error .typeError

/-- The Python `str(...)` rendering used by `'%s' % value` formatting. -/
def pyStr : PyVal → String
  | .int n => toString n
  | .str s => s
  | .pyNone => "None"

/-- Behaviour of one listener method invocation: it either returns
normally or raises; `get_error_details()` yields the short message and the
full details of a raised exception. -/
inductive CallOutcome where
  | ok
  | raises (message details : String)
deriving DecidableEq, Repr

/-- A value stored in an event payload: string, integer, list of strings,
or string-to-string mapping (the shapes §3 of the spec allows). -/
inductive AttrValue where
  | str (s : String)
  | int (n : Int)
  | strList (l : List String)
  | strMap (m : List (String × String))
deriving DecidableEq, Repr

/-- An argument passed to a listener method: the event's primary
identifier (a string) or an attribute payload (a mapping). -/
inductive ArgVal where
  | str (s : String)
  | dict (d : List (String × AttrValue))
deriving DecidableEq, Repr

/-- Observable effect of a notification: a listener method invocation
(with receiver, method name and arguments) or a logger record. -/
inductive OutEvt where
  | call (listenerName methodName : String) (args : List ArgVal)
  | log (entry : LogEntry)
deriving DecidableEq, Repr

/-- A trace of observable effects, in the order they happen. -/
abbrev Out := List OutEvt

def isCall : OutEvt → Bool
  | .call .. => true
  | .log _ => false

/-- The listener-method invocations of a trace, in order. -/
def callsOf (out : Out) : Out := out.filter isCall

/-- The logger records of a trace, in order. -/
def logsOf (out : Out) : List LogEntry :=
  out.filterMap fun e =>
    match e with
    | .log l => some l
    | _ => none

/-- The error-severity logger records of a trace. -/
def errorsOf (out : Out) : List LogEntry :=
  (logsOf out).filter fun l => decide (l.level = Level.error)

/-- The info-severity logger records of a trace. -/
def infosOf (out : Out) : List LogEntry :=
  (logsOf out).filter fun l => decide (l.level = Level.info)

/-- `ListenerProxy`: the adapter around one listener, after successful
construction.  `name` is the display name, `version` the validated
protocol version.  `outcome` is the oracle for the wrapped listener's
method behaviour: given a method name, it says whether that method call
returns or raises (the listener itself is external user code). -/
structure ListenerProxy where
  name : String
  version : Int
  outcome : String → CallOutcome

/-- `ListenerProxy.call_method`: invoke one listener method.  The
invocation is recorded; any exception raised by the listener is caught and
turned into one error-severity record (method name, listener name, short
message) and one info-severity record (full details), exactly as in the
source's `try/except` with `get_error_details`. -/
def call_method (p : ListenerProxy) (methodName : String) (args : List ArgVal) : Out :=
  OutEvt.call p.name methodName args ::
    (match p.outcome methodName with
     | .ok => []
     | .raises msg details =>
         [OutEvt.log ⟨Level.error,
            "Calling method '" ++ methodName ++ "' of listener '" ++ p.name
              ++ "' failed: " ++ msg⟩,
          OutEvt.log ⟨Level.info, "Details:\n" ++ details⟩])

/-- `ListenerProxy._get_version`: read the listener's declared
`ROBOT_LISTENER_API_VERSION` (`none` models the attribute being absent,
i.e. the `AttributeError` branch), convert it with `int(...)`, and accept
exactly the converted value `2`; a failed conversion or a wrong number
raises the same unsupported-version `DataError`. -/
def get_version (name : String) (apiVersion : Option PyVal) : Except String Int :=
  match apiVersion with
  | none =>
      Except.error ("Listener '" ++ name
        ++ "' does not have mandatory 'ROBOT_LISTENER_API_VERSION' attribute.")
  | some v =>
      match pyIntOf v with
      | .error _ =>
          Except.error ("Listener '" ++ name ++ "' uses unsupported API version '"
            ++ pyStr v ++ "'.")
      | .ok n =>
          if n = 2 then Except.ok n
          else
            Except.error ("Listener '" ++ name ++ "' uses unsupported API version '"
              ++ pyStr v ++ "'.")

/-- An already-instantiated listener object, as the adapter sees it:
its runtime type name (`type_name`), its declared version attribute, and
the behaviour oracle for its methods. -/
structure RawListener where
  typeName : String
  apiVersion : Option PyVal
  outcome : String → CallOutcome

/-- One entry of the configured listener sequence: either a pre-built
instance, or a name/path string.  For a string spec, `parsedName` is the
name part produced by `split_args_from_name_or_path` and `imported` is the
outcome of the external `Importer` collaborator (modelled from the spec:
the loader returns an instantiated object or fails with a data error; both
the splitter and the loader live outside this module). -/
inductive ListenerSpec where
  | obj (l : RawListener)
  | named (spec parsedName : String) (imported : Except String RawListener)

/-- `ListenerProxy.__init__`: resolve the instance and display name
(`_import_listener`), then validate the version (`_get_version`).
Construction succeeds only with a validated version; otherwise the
`DataError` message is returned. -/
def mk_listener_proxy : ListenerSpec → Except String ListenerProxy
  | .obj l =>
      match get_version l.typeName l.apiVersion with
      | .error e => .error e
      | .ok v => .ok ⟨l.typeName, v, l.outcome⟩
  | .named _ parsedName imported =>
      match imported with
      | .error e => .error e
      | .ok l =>
          match get_version parsedName l.apiVersion with
          | .error e => .error e
          | .ok v => .ok ⟨parsedName, v, l.outcome⟩

/-- The display name used when logging a construction failure: the
original spec string if the spec is a string (`is_string`), else the
runtime type name (`type_name`). -/
def displayName : ListenerSpec → String
  | .obj l => l.typeName
  | .named spec _ _ => spec

/-- `Listeners._import_listeners`: build an adapter per spec; a spec whose
construction raises `DataError` is dropped with one error-severity record
naming it; survivors keep the input order. -/
def import_listeners : List ListenerSpec → List ListenerProxy × List LogEntry
  | [] => ([], [])
  | spec :: rest =>
      let (ps, logs) := import_listeners rest
      match mk_listener_proxy spec with
      | .ok p => (p :: ps, logs)
      | .error msg =>
          (ps, ⟨Level.error,
            "Taking listener '" ++ displayName spec ++ "' into use failed: " ++ msg⟩ :: logs)

/-! ## Domain objects

The suite / test / keyword / message domain model is an external
collaborator; only its read-only attribute surface matters (§6 of the
spec).  Generic attributes read through `getattr` are modelled as a
name-indexed oracle `attr`; the attributes the module reads explicitly
(`name`, `critical`, `template`, `type`, message fields, ...) are explicit
fields.  A Python falsy-or-default expression such as `test.template or ''`
is modelled with `Option.getD`. -/

structure Suite where
  name : String
  testNames : List String
  suiteNames : List String
  test_count : Int
  source : Option String
  stat_message : String
  attr : String → AttrValue

structure Test where
  name : String
  critical : Bool
  template : Option String
  attr : String → AttrValue

structure Kw where
  name : String
  type : String
  attr : String → AttrValue

structure Msg where
  timestamp : String
  message : String
  level : String
  html : Bool

/-- `Listeners._start_attrs`. -/
def start_attrs : List String := ["id", "doc", "starttime", "longname"]

/-- `Listeners._end_attrs = _start_attrs + ('endtime', 'elapsedtime', 'status', 'message')`. -/
def end_attrs : List String := start_attrs ++ ["endtime", "elapsedtime", "status", "message"]

/-- `Listeners._kw_extra_attrs`. -/
def kw_extra_attrs : List String :=
  ["args", "assign", "kwname", "libname", "-id", "-longname", "-message"]

/-- `name.startswith('-')`, decided on the character list. -/
def startsWithDash (s : String) : Bool :=
  match s.data with
  | '-' :: _ => true
  | _ => false

/-- `Listeners._get_attr_names`: start from the defaults; a plain extra
name is appended; an extra of the form `-name` removes the first
occurrence of `name` when present (`list.remove`). -/
def get_attr_names (default extra : List String) : List String :=
  extra.foldl
    (fun names name =>
      if startsWithDash name = false then names ++ [name]
      else if (name.drop 1) ∈ names then names.erase (name.drop 1)
      else names)
    default

/-- `Listeners._take_copy_of_mutable_value` in the pure value model:
`dict(value)` and `list(value)` copy the contents, other values pass
through.  On pure values the copy is content-preserving; the aliasing
content of the copy is proved separately on the heap model below. -/
def take_copy_of_mutable_value : AttrValue → AttrValue
  | .strMap m => .strMap m
  | .strList l => .strList l
  | .str s => .str s
  | .int n => .int n

/-- `Listeners._get_attr_value`: `getattr` then copy. -/
def get_attr_value (item : String → AttrValue) (name : String) : AttrValue :=
  take_copy_of_mutable_value (item name)

/-- `Listeners._get_attrs`: the payload dictionary, in key insertion
order. -/
def get_attrs (item : String → AttrValue) (default extra : List String) :
    List (String × AttrValue) :=
  (get_attr_names default extra).map fun n => (n, get_attr_value item n)

/-- `Listeners._get_suite_attrs`: fresh lists of child test and suite
names, the test count, and `suite.source or ''`. -/
def get_suite_attrs (s : Suite) : List (String × AttrValue) :=
  [("tests", .strList s.testNames),
   ("suites", .strList s.suiteNames),
   ("totaltests", .int s.test_count),
   ("source", .str (s.source.getD ""))]

/-- The payload built in `Listeners.start_suite`: start attributes plus
`metadata`, then `attrs.update(self._get_suite_attrs(suite))` (all four
updating keys are new, so the update appends). -/
def start_suite_attrs (s : Suite) : List (String × AttrValue) :=
  get_attrs s.attr start_attrs ["metadata"] ++ get_suite_attrs s

/-- The payload built in `Listeners.start_test`. -/
def start_test_attrs (t : Test) : List (String × AttrValue) :=
  get_attrs t.attr start_attrs ["tags"]
    ++ [("critical", .str (if t.critical then "yes" else "no")),
        ("template", .str (t.template.getD ""))]

/-- The payload built in `Listeners._notify_end_test`. -/
def end_test_attrs (t : Test) : List (String × AttrValue) :=
  get_attrs t.attr end_attrs ["tags"]
    ++ [("critical", .str (if t.critical then "yes" else "no")),
        ("template", .str (t.template.getD ""))]

/-- `Listeners._create_msg_dict`. -/
def create_msg_dict (m : Msg) : List (String × AttrValue) :=
  [("timestamp", .str m.timestamp),
   ("message", .str m.message),
   ("level", .str m.level),
   ("html", .str (if m.html then "yes" else "no"))]

/-! ## Registry state and the keyword-type state machine -/

/-- The mutable fields of a `Listeners` instance.  `listeners = none`
models `self._listeners` never having been assigned: `__init__` only
assigns it when the constructor argument is not `None`, so reading it in
that case raises `AttributeError`. -/
structure Listeners where
  listeners : Option (List ListenerProxy)
  running_test : Bool
  setup_or_teardown_type : Option String

/-- Python `str.title()` on the keyword-type words in scope: the first
letter of each alphabetic run is uppercased, the rest lowercased. -/
def pyTitleAux : Bool → List Char → List Char
  | _, [] => []
  | prevAlpha, c :: rest =>
      (if c.isAlpha then (if prevAlpha then c.toLower else c.toUpper) else c)
        :: pyTitleAux c.isAlpha rest

def pyTitle (s : String) : String := String.mk (pyTitleAux false s.data)

/-- `Listeners._get_setup_or_teardown_type`: scope label from
`_running_test` plus the title-cased declared type. -/
def get_setup_or_teardown_type (st : Listeners) (kw : Kw) : String :=
  (if st.running_test then "Test" else "Suite") ++ " " ++ pyTitle kw.type

/-- `Listeners._get_keyword_type`: a plain `'kw'` keyword reports the
pending setup/teardown type (`or 'Keyword'` when none is pending); a
setup/teardown keyword reports its computed label and, on a start
notification, stores it as the pending type, on an end notification
clears the pending type. -/
def get_keyword_type (st : Listeners) (kw : Kw) (start : Bool) : String × Listeners :=
  if kw.type = "kw" then
    (st.setup_or_teardown_type.getD "Keyword", st)
  else
    let kw_type := get_setup_or_teardown_type st kw
    (kw_type, { st with setup_or_teardown_type := if start then some kw_type else none })

/-! ## The `no_recursion` wrapper -/

/-- A `Listeners` instance together with its `_recursion` guard flag
(installed on the class by the `no_recursion` decorator, initially
`False`). -/
structure RState (σ : Type) where
  recursion : Bool
  inner : σ

/-- A notification method body acting on the inner fields only (the
bodies in the source never touch `_recursion` directly); the result is
the new state, the trace of observable effects, and the exception the
body raises, if any. -/
def liftBody {σ : Type} (f : σ → σ × Out × Option PyExc)
    (s : RState σ) : RState σ × Out × Option PyExc :=
  match f s.inner with
  | (st, out, e) => ({ s with inner := st }, out, e)

/-- `no_recursion.avoid_recursion_wrapper.avoid_recursion`: a call made
while `_recursion` is set returns at once with no effect; otherwise the
flag is set, the body runs, and the flag is cleared afterwards — but only
on a normal return: there is no `try/finally`, so an exception escaping
the body leaves the flag set. -/
def avoid_recursion {σ : Type} (body : RState σ → RState σ × Out × Option PyExc)
    (s : RState σ) : RState σ × Out × Option PyExc :=
  if s.recursion then (s, [], none)
  else
    match body { s with recursion := true } with
    | (s', out, none) => ({ s' with recursion := false }, out, none)
    | (s', out, some e) => (s', out, some e)

/-! ## Notification bodies -/

/-- The `for listener in self._listeners:` loop shape shared by the
notification operations whose payload does not depend on mutable
registry state: each listener gets the same method call, in registration
order. -/
def deliver_each (methodName : String) (args : List ArgVal) :
    List ListenerProxy → Out
  | [] => []
  | p :: rest => call_method p methodName args ++ deliver_each methodName args rest

/-- `Listeners.start_suite`. -/
def start_suite_body (s : Suite) (st : Listeners) : Listeners × Out × Option PyExc :=
  match st.listeners with
  | none => (st, [], some .attributeError)
  | some ls =>
      (st, deliver_each "start_suite" [.str s.name, .dict (start_suite_attrs s)] ls, none)

/-- `Listeners.start_test`: `_running_test` is set before the loop reads
`_listeners`. -/
def start_test_body (t : Test) (st : Listeners) : Listeners × Out × Option PyExc :=
  let st1 := { st with running_test := true }
  match st1.listeners with
  | none => (st1, [], some .attributeError)
  | some ls =>
      (st1, deliver_each "start_test" [.str t.name, .dict (start_test_attrs t)] ls, none)

/-- `Listeners.end_test`: `_running_test` is cleared before the loop. -/
def end_test_body (t : Test) (st : Listeners) : Listeners × Out × Option PyExc :=
  let st1 := { st with running_test := false }
  match st1.listeners with
  | none => (st1, [], some .attributeError)
  | some ls =>
      (st1, deliver_each "end_test" [.str t.name, .dict (end_test_attrs t)] ls, none)

/-- The payload one iteration of the `Listeners.start_keyword` loop
builds: start attributes filtered by the keyword extras, plus the derived
`type` field. -/
def start_keyword_attrs (st : Listeners) (kw : Kw) : List (String × AttrValue) :=
  get_attrs kw.attr start_attrs kw_extra_attrs
    ++ [("type", .str (get_keyword_type st kw true).1)]

/-- The payload one iteration of the `Listeners.end_keyword` loop builds. -/
def end_keyword_attrs (st : Listeners) (kw : Kw) : List (String × AttrValue) :=
  get_attrs kw.attr end_attrs kw_extra_attrs
    ++ [("type", .str (get_keyword_type st kw false).1)]

/-- The loop of `Listeners.start_keyword`: the payload and the derived
`type` are recomputed per listener, and `_get_keyword_type` updates the
pending type each iteration. -/
def start_keyword_loop (kw : Kw) : List ListenerProxy → Listeners → Listeners × Out
  | [], st => (st, [])
  | p :: rest, st =>
      let out := call_method p "start_keyword"
        [.str kw.name, .dict (start_keyword_attrs st kw)]
      let st' := (get_keyword_type st kw true).2
      let (st'', out2) := start_keyword_loop kw rest st'
      (st'', out ++ out2)

/-- `Listeners.start_keyword`. -/
def start_keyword_body (kw : Kw) (st : Listeners) : Listeners × Out × Option PyExc :=
  match st.listeners with
  | none => (st, [], some .attributeError)
  | some ls =>
      let (st', out) := start_keyword_loop kw ls st
      (st', out, none)

/-- The loop of `Listeners.end_keyword`. -/
def end_keyword_loop (kw : Kw) : List ListenerProxy → Listeners → Listeners × Out
  | [], st => (st, [])
  | p :: rest, st =>
      let out := call_method p "end_keyword"
        [.str kw.name, .dict (end_keyword_attrs st kw)]
      let st' := (get_keyword_type st kw false).2
      let (st'', out2) := end_keyword_loop kw rest st'
      (st'', out ++ out2)

/-- `Listeners.end_keyword`. -/
def end_keyword_body (kw : Kw) (st : Listeners) : Listeners × Out × Option PyExc :=
  match st.listeners with
  | none => (st, [], some .attributeError)
  | some ls =>
      let (st', out) := end_keyword_loop kw ls st
      (st', out, none)

/-- `Listeners.log_message`. -/
def log_message_body (m : Msg) (st : Listeners) : Listeners × Out × Option PyExc :=
  match st.listeners with
  | none => (st, [], some .attributeError)
  | some ls =>
      (st, deliver_each "log_message" [.dict (create_msg_dict m)] ls, none)

/-- `ListenerProxy._methods`: the attribute surface the proxy exposes
(each of these names is bound on the proxy by `AbstractLoggerProxy`). -/
def listener_proxy_methods : List String :=
  ["start_suite", "end_suite", "start_test", "end_test",
   "start_keyword", "end_keyword", "log_message", "message",
   "output_file", "report_file", "log_file", "debug_file",
   "xunit_file", "close", "library_import", "resource_import",
   "variables_import"]

/-- `import_type.lower()`, decided on the character list. -/
def pyLower (s : String) : String := String.mk (s.data.map Char.toLower)

/-- The loop of `Listeners.imported`:
`getattr(listener, '%s_import' % import_type.lower())` raises
`AttributeError` (aborting the loop and the whole method) when the proxy
has no such attribute; otherwise the method is invoked with the isolated
`call_method`. -/
def imported_loop (mname nm : String) (attrs : List (String × AttrValue)) :
    List ListenerProxy → Out × Option PyExc
  | [] => ([], none)
  | p :: rest =>
      if listener_proxy_methods.contains mname then
        let o := call_method p mname [.str nm, .dict attrs]
        let (o2, e) := imported_loop mname nm attrs rest
        (o ++ o2, e)
      else ([], some .attributeError)

/-- `Listeners.imported`. -/
def imported_body (import_type nm : String) (attrs : List (String × AttrValue))
    (st : Listeners) : Listeners × Out × Option PyExc :=
  match st.listeners with
  | none => (st, [], some .attributeError)
  | some ls =>
      let (out, e) := imported_loop (pyLower import_type ++ "_import") nm attrs ls
      (st, out, e)

/-- The payload built in `Listeners._notify_end_suite`: end attributes
plus `metadata`, then the `statistics` key, then
`attrs.update(self._get_suite_attrs(suite))` (all four updating keys are
new, so the update appends). -/
def end_suite_attrs (s : Suite) : List (String × AttrValue) :=
  get_attrs s.attr end_attrs ["metadata"]
    ++ [("statistics", .str s.stat_message)]
    ++ get_suite_attrs s

/-- `Listeners.end_suite`. -/
def end_suite_body (s : Suite) (st : Listeners) : Listeners × Out × Option PyExc :=
  match st.listeners with
  | none => (st, [], some .attributeError)
  | some ls =>
      (st, deliver_each "end_suite" [.str s.name, .dict (end_suite_attrs s)] ls, none)

/-- `Listeners.message`. -/
def message_body (m : Msg) (st : Listeners) : Listeners × Out × Option PyExc :=
  match st.listeners with
  | none => (st, [], some .attributeError)
  | some ls =>
      (st, deliver_each "message" [.dict (create_msg_dict m)] ls, none)

/-- The loop of `Listeners.output_file`:
`getattr(listener, '%s_file' % file_type.lower())` raises
`AttributeError` when the proxy has no such attribute; otherwise the
method is invoked with the path through the isolated `call_method`. -/
def output_file_loop (mname path : String) :
    List ListenerProxy → Out × Option PyExc
  | [] => ([], none)
  | p :: rest =>
      if listener_proxy_methods.contains mname then
        let o := call_method p mname [.str path]
        let (o2, e) := output_file_loop mname path rest
        (o ++ o2, e)
      else ([], some .attributeError)

/-- `Listeners.output_file`. -/
def output_file_body (file_type path : String) (st : Listeners) :
    Listeners × Out × Option PyExc :=
  match st.listeners with
  | none => (st, [], some .attributeError)
  | some ls =>
      let (out, e) := output_file_loop (pyLower file_type ++ "_file") path ls
      (st, out, e)

/-- `Listeners.close`. -/
def close_body (st : Listeners) : Listeners × Out × Option PyExc :=
  match st.listeners with
  | none => (st, [], some .attributeError)
  | some ls => (st, deliver_each "close" [] ls, none)

/-! ## The notification events

One value per public notification operation of the registry, carrying the
domain object (or dynamic subtype strings) the run driver passes. -/

inductive Event where
  | start_suite (s : Suite)
  | end_suite (s : Suite)
  | start_test (t : Test)
  | end_test (t : Test)
  | start_keyword (kw : Kw)
  | end_keyword (kw : Kw)
  | log_message (m : Msg)
  | message (m : Msg)
  | imported (import_type nm : String) (attrs : List (String × AttrValue))
  | output_file (file_type path : String)
  | close

/-- The name of the listener method an event is dispatched to (for
`imported` and `output_file` this is the dynamically computed
`'%s_import'` / `'%s_file'` name). -/
def eventMethod : Event → String
  | .start_suite _ => "start_suite"
  | .end_suite _ => "end_suite"
  | .start_test _ => "start_test"
  | .end_test _ => "end_test"
  | .start_keyword _ => "start_keyword"
  | .end_keyword _ => "end_keyword"
  | .log_message _ => "log_message"
  | .message _ => "message"
  | .imported it _ _ => pyLower it ++ "_import"
  | .output_file ft _ => pyLower ft ++ "_file"
  | .close => "close"

/-- The arguments every adapter receives for an event, given the inner
registry state at entry of the notification body (only the keyword events
read it, for the derived `type` field). -/
def eventArgs : Event → Listeners → List ArgVal
  | .start_suite s, _ => [.str s.name, .dict (start_suite_attrs s)]
  | .end_suite s, _ => [.str s.name, .dict (end_suite_attrs s)]
  | .start_test t, _ => [.str t.name, .dict (start_test_attrs t)]
  | .end_test t, _ => [.str t.name, .dict (end_test_attrs t)]
  | .start_keyword kw, st => [.str kw.name, .dict (start_keyword_attrs st kw)]
  | .end_keyword kw, st => [.str kw.name, .dict (end_keyword_attrs st kw)]
  | .log_message m, _ => [.dict (create_msg_dict m)]
  | .message m, _ => [.dict (create_msg_dict m)]
  | .imported _ nm attrs, _ => [.str nm, .dict attrs]
  | .output_file _ path, _ => [.str path]
  | .close, _ => []

/-- The body of the notification operation an event selects. -/
def notify_body : Event → Listeners → Listeners × Out × Option PyExc
  | .start_suite s => start_suite_body s
  | .end_suite s => end_suite_body s
  | .start_test t => start_test_body t
  | .end_test t => end_test_body t
  | .start_keyword kw => start_keyword_body kw
  | .end_keyword kw => end_keyword_body kw
  | .log_message m => log_message_body m
  | .message m => message_body m
  | .imported it nm attrs => imported_body it nm attrs
  | .output_file ft path => output_file_body ft path
  | .close => close_body

/-- The wrapped public notification operation for an event. -/
def notify_pub (ev : Event) : RState Listeners → RState Listeners × Out × Option PyExc :=
  avoid_recursion (liftBody (notify_body ev))

/-! ## Public (wrapped) operations, construction, emptiness -/

def start_suite_pub (s : Suite) : RState Listeners → RState Listeners × Out × Option PyExc :=
  avoid_recursion (liftBody (start_suite_body s))

def start_test_pub (t : Test) : RState Listeners → RState Listeners × Out × Option PyExc :=
  avoid_recursion (liftBody (start_test_body t))

def end_test_pub (t : Test) : RState Listeners → RState Listeners × Out × Option PyExc :=
  avoid_recursion (liftBody (end_test_body t))

def start_keyword_pub (kw : Kw) : RState Listeners → RState Listeners × Out × Option PyExc :=
  avoid_recursion (liftBody (start_keyword_body kw))

def end_keyword_pub (kw : Kw) : RState Listeners → RState Listeners × Out × Option PyExc :=
  avoid_recursion (liftBody (end_keyword_body kw))

def log_message_pub (m : Msg) : RState Listeners → RState Listeners × Out × Option PyExc :=
  avoid_recursion (liftBody (log_message_body m))

def imported_pub (import_type nm : String) (attrs : List (String × AttrValue)) :
    RState Listeners → RState Listeners × Out × Option PyExc :=
  avoid_recursion (liftBody (imported_body import_type nm attrs))

/-- `Listeners.__init__`: `_listeners` is assigned only when the argument
is not `None`; construction failures are logged; `_running_test` and
`_setup_or_teardown_type` are initialised; `_recursion` starts `False`
(class attribute set by `no_recursion`). -/
def listeners_init (specs : Option (List ListenerSpec)) :
    RState Listeners × List LogEntry :=
  match specs with
  | none => (⟨false, ⟨none, false, none⟩⟩, [])
  | some ss =>
      let (ps, logs) := import_listeners ss
      (⟨false, ⟨some ps, false, none⟩⟩, logs)

/-- `Listeners.__nonzero__`: `bool(self._listeners)`; reading the unset
attribute raises `AttributeError`. -/
def nonzero (st : Listeners) : Except PyExc Bool :=
  match st.listeners with
  | none => .error .attributeError
  | some ls => .ok (!ls.isEmpty)

/-- A sequence of wrapped public notification calls, as the run driver
would issue them; exceptions propagate to the driver but the next call of
the sequence still happens on the state left behind. -/
def run_notifications :
    List (RState Listeners → RState Listeners × Out × Option PyExc) →
    RState Listeners → RState Listeners × Out
  | [], s => (s, [])
  | b :: bs, s =>
      let (s', o, _) := avoid_recursion b s
      let (s'', o2) := run_notifications bs s'
      (s'', o ++ o2)

/-! ## Heap model for payload copy safety

Aliasing is invisible in a pure value model, so
`Listeners._take_copy_of_mutable_value` gets a second embedding over an
explicit heap of mutable container cells.  A domain attribute value is
either an immutable scalar or a reference into the heap; `dict(value)` and
`list(value)` allocate a fresh cell holding the same contents. -/

/-- One mutable Python container: a list of strings or a string mapping. -/
inductive Cell where
  | list (elems : List String)
  | dict (entries : List (String × String))
deriving DecidableEq, Repr

/-- The heap: cells addressed by allocation index. -/
abbrev Heap := List Cell

/-- A domain attribute value in the heap model. -/
inductive HValue where
  | imm (s : String)
  | ref (r : Nat)
deriving DecidableEq, Repr

/-- `Listeners._take_copy_of_mutable_value` on the heap: `is_dict_like` /
`is_list_like` values (references to container cells) are copied into a
fresh cell; other values pass through.  (A dangling reference cannot
occur for a live domain object; it is left untouched.) -/
def take_copy_of_mutable_value_h (h : Heap) : HValue → Heap × HValue
  | .imm s => (h, .imm s)
  | .ref r =>
      match h[r]? with
      | some c => (h ++ [c], .ref h.length)
      | none => (h, .ref r)

/-- `Listeners._get_attr_value` on the heap: `getattr(item, name)` then
the copy. -/
def get_attr_value_h (h : Heap) (item : String → HValue) (name : String) :
    Heap × HValue :=
  take_copy_of_mutable_value_h h (item name)

/-- Mutating a container in place (e.g. `suite.tests.append(...)` on the
domain side): replace the contents of cell `r`. -/
def writeCell (h : Heap) (r : Nat) (c : Cell) : Heap := h.set r c

example : pyTitle "setup" = "Setup" := by decide
example : pyTitle "teardown" = "Teardown" := by decide
example : pyLower "Library" ++ "_import" = "library_import" := by decide
example : get_attr_names start_attrs kw_extra_attrs
    = ["doc", "starttime", "args", "assign", "kwname", "libname"] := by decide
example : get_attr_names end_attrs ["tags"]
    = ["id", "doc", "starttime", "longname", "endtime", "elapsedtime",
       "status", "message", "tags"] := by decide

/-! ## Helper lemmas about traces and the wrapper -/

theorem callsOf_append (a b : Out) : callsOf (a ++ b) = callsOf a ++ callsOf b := by
  simp [callsOf, List.filter_append]

theorem logsOf_append (a b : Out) : logsOf (a ++ b) = logsOf a ++ logsOf b := by
  simp [logsOf, List.filterMap_append]

theorem callsOf_call_method (p : ListenerProxy) (m : String) (a : List ArgVal) :
    callsOf (call_method p m a) = [OutEvt.call p.name m a] := by
  cases h : p.outcome m <;> simp [call_method, callsOf, h, isCall]

theorem logsOf_call_method_ok (p : ListenerProxy) (m : String) (a : List ArgVal)
    (h : p.outcome m = .ok) : logsOf (call_method p m a) = [] := by
  simp [call_method, logsOf, h]

theorem logsOf_call_method_raises (p : ListenerProxy) (m : String) (a : List ArgVal)
    (msg d : String) (h : p.outcome m = .raises msg d) :
    logsOf (call_method p m a) =
      [⟨Level.error, "Calling method '" ++ m ++ "' of listener '" ++ p.name
          ++ "' failed: " ++ msg⟩,
       ⟨Level.info, "Details:\n" ++ d⟩] := by
  simp [call_method, logsOf, h]

theorem deliver_each_append (m : String) (a : List ArgVal) (l1 l2 : List ListenerProxy) :
    deliver_each m a (l1 ++ l2) = deliver_each m a l1 ++ deliver_each m a l2 := by
  induction l1 with
  | nil => simp [deliver_each]
  | cons p rest ih => simp [deliver_each, ih]

theorem callsOf_deliver_each (m : String) (a : List ArgVal) (ls : List ListenerProxy) :
    callsOf (deliver_each m a ls) = ls.map fun p => OutEvt.call p.name m a := by
  induction ls with
  | nil => simp [deliver_each, callsOf]
  | cons p rest ih => simp [deliver_each, callsOf_append, callsOf_call_method, ih]

theorem logsOf_deliver_each_ok (m : String) (a : List ArgVal) (ls : List ListenerProxy)
    (h : ∀ q ∈ ls, q.outcome m = .ok) :
    logsOf (deliver_each m a ls) = [] := by
  induction ls with
  | nil => simp [deliver_each, logsOf]
  | cons p rest ih =>
      have hp := h p (by simp)
      have hr : ∀ q ∈ rest, q.outcome m = .ok := fun q hq => h q (by simp [hq])
      simp [deliver_each, logsOf_append, logsOf_call_method_ok _ _ _ hp, ih hr]

theorem avoid_recursion_blocked {σ : Type}
    (body : RState σ → RState σ × Out × Option PyExc) (s : RState σ)
    (h : s.recursion = true) :
    avoid_recursion body s = (s, [], none) := by
  simp [avoid_recursion, h]

theorem avoid_recursion_run {σ : Type} (f : σ → σ × Out × Option PyExc)
    (s : RState σ) (h : s.recursion = false) (st : σ) (o : Out)
    (hb : f s.inner = (st, o, none)) :
    avoid_recursion (liftBody f) s = (⟨false, st⟩, o, none) := by
  simp [avoid_recursion, h, liftBody, hb]

theorem avoid_recursion_raises {σ : Type} (f : σ → σ × Out × Option PyExc)
    (s : RState σ) (h : s.recursion = false) (st : σ) (o : Out) (e : PyExc)
    (hb : f s.inner = (st, o, some e)) :
    avoid_recursion (liftBody f) s = (⟨true, st⟩, o, some e) := by
  simp [avoid_recursion, h, liftBody, hb]

theorem run_notifications_blocked
    (bs : List (RState Listeners → RState Listeners × Out × Option PyExc))
    (s : RState Listeners) (h : s.recursion = true) :
    run_notifications bs s = (s, []) := by
  induction bs with
  | nil => simp [run_notifications]
  | cons b rest ih => simp [run_notifications, avoid_recursion_blocked _ _ h, ih]

/-- Keys of a payload built by `_get_attrs` are exactly the computed
attribute names. -/
theorem map_fst_get_attrs (item : String → AttrValue) (default extra : List String) :
    (get_attrs item default extra).map Prod.fst = get_attr_names default extra := by
  simp [get_attrs, List.map_map, Function.comp_def]

/-- Adapters and failure records balance the input spec count. -/
theorem import_listeners_length (specs : List ListenerSpec) :
    (import_listeners specs).1.length + (import_listeners specs).2.length
      = specs.length := by
  induction specs with
  | nil => simp [import_listeners]
  | cons s rest ih =>
      cases h : mk_listener_proxy s <;> simp [import_listeners, h] <;> omega

/-! ## C2 -/

/-- C2 (amended): for a pre-built listener instance, adapter construction
fails with the missing-attribute `DataError` when the version marker is
absent; fails with the unsupported-version `DataError` (naming the
listener and the declared value) when the marker is present but its
Python integer conversion is not the supported version `2` — non-numeric
and wrong numeric values alike; and succeeds exactly when the integer
conversion of the marker equals `2` (so the string `"2"` is accepted as
well as the integer `2`). -/
theorem c2_version_validation (l : RawListener) :
    (l.apiVersion = none →
      mk_listener_proxy (.obj l)
        = .error ("Listener '" ++ l.typeName
            ++ "' does not have mandatory 'ROBOT_LISTENER_API_VERSION' attribute.")) ∧
    (∀ v, l.apiVersion = some v → pyIntOf v ≠ .ok 2 →
      mk_listener_proxy (.obj l)
        = .error ("Listener '" ++ l.typeName ++ "' uses unsupported API version '"
            ++ pyStr v ++ "'.")) ∧
    (∀ v, l.apiVersion = some v → pyIntOf v = .ok 2 →
      mk_listener_proxy (.obj l) = .ok ⟨l.typeName, 2, l.outcome⟩) := by
  refine ⟨?_, ?_, ?_⟩
  · intro h
    simp [mk_listener_proxy, get_version, h]
  · intro v hv hne
    cases hi : pyIntOf v with
    | error e => simp [mk_listener_proxy, get_version, hv, hi]
    | ok n =>
        have hn : ¬ n = 2 := by rintro rfl; exact hne hi
        simp [mk_listener_proxy, get_version, hv, hi, hn]
  · intro v hv hi
    simp [mk_listener_proxy, get_version, hv, hi]

/-- C2 counterexample: the claim says construction succeeds exactly when
the marker equals 2, but a listener declaring the *string* `"2"` — a
value different from the integer 2 — is also accepted by the code. -/
theorem c2_counterexample :
    PyVal.str "2" ≠ PyVal.int 2 ∧
    mk_listener_proxy (.obj ⟨"Obs", some (.str "2"), fun _ => .ok⟩)
      = .ok ⟨"Obs", 2, fun _ => .ok⟩ := by
  exact ⟨by decide, rfl⟩

/-- C2 witness: a listener declaring the integer 2 constructs; one with no
marker and one declaring the string "1" fail with the two messages. -/
theorem c2_witness :
    mk_listener_proxy (.obj ⟨"MyListener", some (.int 2), fun _ => .ok⟩)
      = .ok ⟨"MyListener", 2, fun _ => .ok⟩ ∧
    mk_listener_proxy (.obj ⟨"NoVersion", none, fun _ => .ok⟩)
      = .error "Listener 'NoVersion' does not have mandatory 'ROBOT_LISTENER_API_VERSION' attribute." ∧
    mk_listener_proxy (.obj ⟨"OldVersion", some (.str "1"), fun _ => .ok⟩)
      = .error "Listener 'OldVersion' uses unsupported API version '1'." :=
  ⟨(c2_version_validation _).2.2 (PyVal.int 2) rfl rfl,
   (c2_version_validation _).1 rfl,
   by
     have := (c2_version_validation ⟨"OldVersion", some (.str "1"), fun _ => .ok⟩).2.1
       (PyVal.str "1") rfl
       (by rw [show pyIntOf (.str "1") = Except.ok 1 from rfl]
           exact fun h => absurd (Except.ok.inj h) (by decide))
     simpa using this⟩

/-! ## C5 -/

/-- Whether a spec's adapter construction raises `DataError`. -/
def construction_fails (s : ListenerSpec) : Bool :=
  match mk_listener_proxy s with
  | .ok _ => false
  | .error _ => true

/-- The single error record `_import_listeners` emits for a failing
spec. -/
def construction_failure_entry (s : ListenerSpec) : LogEntry :=
  ⟨Level.error,
   "Taking listener '" ++ displayName s ++ "' into use failed: "
     ++ (match mk_listener_proxy s with
         | .error e => e
         | .ok _ => "")⟩

/-- C5: for every input sequence of listener specifications, the adapters
kept are exactly the successful constructions in input order, the adapter
count is the input count minus the failure count, and each failing spec
yields exactly one error-severity record naming its display name (the
spec string for string specs, the runtime type name otherwise) and the
failure cause. -/
theorem c5_construction_failures_dropped (specs : List ListenerSpec) :
    (import_listeners specs).1
        = specs.filterMap (fun s => (mk_listener_proxy s).toOption) ∧
    (import_listeners specs).1.length
        = specs.length - (specs.filter construction_fails).length ∧
    (import_listeners specs).2
        = (specs.filter construction_fails).map construction_failure_entry := by
  have hmain :
      (import_listeners specs).1
          = specs.filterMap (fun s => (mk_listener_proxy s).toOption) ∧
      (import_listeners specs).2
          = (specs.filter construction_fails).map construction_failure_entry := by
    induction specs with
    | nil => exact ⟨rfl, rfl⟩
    | cons s rest ih =>
        cases h : mk_listener_proxy s with
        | ok p =>
            exact ⟨by simp [import_listeners, h, ih.1, Except.toOption,
                            construction_fails],
                   by simp [import_listeners, h, ih.2, construction_fails]⟩
        | error e =>
            exact ⟨by simp [import_listeners, h, ih.1, Except.toOption,
                            construction_fails],
                   by simp [import_listeners, h, ih.2, construction_fails,
                            construction_failure_entry]⟩
  refine ⟨hmain.1, ?_, hmain.2⟩
  have hlen := import_listeners_length specs
  have hlogs : (import_listeners specs).2.length
      = (specs.filter construction_fails).length := by
    rw [hmain.2, List.length_map]
  have hfle : (specs.filter construction_fails).length ≤ specs.length :=
    List.length_filter_le _ _
  omega

/-! ## C6 -/

/-- C6: a payload value obtained through `_get_attr_value` for a mutable
(sequence- or mapping-valued) domain attribute never aliases the domain
object's own container: the copy lives in a fresh cell holding the
contents observed at delivery time, and mutating any pre-existing cell —
in particular the domain attribute's own container — afterwards leaves
the payload's cell unchanged. -/
theorem c6_payload_copy_safety (h : Heap) (item : String → HValue) (name : String)
    (r : Nat) (hattr : item name = .ref r) (hr : r < h.length) :
    (get_attr_value_h h item name).2 = .ref h.length ∧
    (get_attr_value_h h item name).1[h.length]? = h[r]? ∧
    ∀ (r2 : Nat) (c : Cell), r2 < h.length →
      (writeCell (get_attr_value_h h item name).1 r2 c)[h.length]? = h[r]? := by
  have hcell : h[r]? = some h[r] := List.getElem?_eq_getElem hr
  have hval : get_attr_value_h h item name = (h ++ [h[r]], .ref h.length) := by
    simp [get_attr_value_h, take_copy_of_mutable_value_h, hattr, hcell]
  have hread : (h ++ [h[r]])[h.length]? = some h[r] := by
    rw [List.getElem?_append_right (le_refl h.length)]
    simp
  refine ⟨by rw [hval], by rw [hval, hread, hcell], ?_⟩
  intro r2 c hr2
  have hne : r2 ≠ h.length := by omega
  rw [hval, writeCell, List.getElem?_set_ne hne, hread, hcell]

/-- C6 witness: copying a suite's two-element test list into a payload
and then mutating the suite's own list leaves the payload cell holding
the originally observed contents. -/
theorem c6_witness :
    (get_attr_value_h [Cell.list ["T1", "T2"]] (fun _ => .ref 0) "tests").2
        = .ref 1 ∧
    (writeCell (get_attr_value_h [Cell.list ["T1", "T2"]] (fun _ => .ref 0) "tests").1
        0 (Cell.list ["T1", "T2", "T3"]))[1]?
      = some (Cell.list ["T1", "T2"]) := by
  have h := c6_payload_copy_safety [Cell.list ["T1", "T2"]] (fun _ => .ref 0) "tests"
    0 rfl (by decide)
  exact ⟨h.1, h.2.2 0 (Cell.list ["T1", "T2", "T3"]) (by decide)⟩

/-! ## C7 -/

/-- The key set C7 claims for the end_test payload. -/
def c7_claimed_keys : List String :=
  ["id", "doc", "endtime", "elapsedtime", "status", "message", "longname",
   "tags", "critical", "template"]

/-- C7 counterexample: for a concrete test, the end_test payload's key set
is not the claimed one — `starttime` is also a key, because
`_end_attrs = _start_attrs + (...)` keeps all the start attributes. -/
theorem c7_counterexample :
    "starttime" ∈ (end_test_attrs ⟨"T", true, some "tpl", fun _ => .str "v"⟩).map Prod.fst ∧
    "starttime" ∉ c7_claimed_keys ∧
    ((end_test_attrs ⟨"T", true, some "tpl", fun _ => .str "v"⟩).map Prod.fst).toFinset
      ≠ c7_claimed_keys.toFinset := by
  refine ⟨by decide, by decide, by decide⟩

/-- C7 (amended): for every end_test notification, the payload's key list
is exactly id, doc, starttime, longname, endtime, elapsedtime, status,
message, tags, critical, template — the claimed keys plus `starttime`. -/
theorem c7_end_test_payload_keys (t : Test) :
    (end_test_attrs t).map Prod.fst
      = ["id", "doc", "starttime", "longname", "endtime", "elapsedtime",
         "status", "message", "tags", "critical", "template"] := by
  simp only [end_test_attrs, List.map_append, map_fst_get_attrs,
             List.map_cons, List.map_nil]
  decide

/-! ## C8 -/

/-- C8: every start_keyword and end_keyword payload excludes the base
fields id, longname and message and includes args, assign, kwname,
libname and the derived type field. -/
theorem c8_keyword_payload_fields (st : Listeners) (kw : Kw) :
    "id" ∉ (start_keyword_attrs st kw).map Prod.fst ∧
    "longname" ∉ (start_keyword_attrs st kw).map Prod.fst ∧
    "message" ∉ (start_keyword_attrs st kw).map Prod.fst ∧
    "args" ∈ (start_keyword_attrs st kw).map Prod.fst ∧
    "assign" ∈ (start_keyword_attrs st kw).map Prod.fst ∧
    "kwname" ∈ (start_keyword_attrs st kw).map Prod.fst ∧
    "libname" ∈ (start_keyword_attrs st kw).map Prod.fst ∧
    "type" ∈ (start_keyword_attrs st kw).map Prod.fst ∧
    "id" ∉ (end_keyword_attrs st kw).map Prod.fst ∧
    "longname" ∉ (end_keyword_attrs st kw).map Prod.fst ∧
    "message" ∉ (end_keyword_attrs st kw).map Prod.fst ∧
    "args" ∈ (end_keyword_attrs st kw).map Prod.fst ∧
    "assign" ∈ (end_keyword_attrs st kw).map Prod.fst ∧
    "kwname" ∈ (end_keyword_attrs st kw).map Prod.fst ∧
    "libname" ∈ (end_keyword_attrs st kw).map Prod.fst ∧
    "type" ∈ (end_keyword_attrs st kw).map Prod.fst := by
  have hs : (start_keyword_attrs st kw).map Prod.fst
      = ["doc", "starttime", "args", "assign", "kwname", "libname", "type"] := by
    simp only [start_keyword_attrs, List.map_append, map_fst_get_attrs,
               List.map_cons, List.map_nil]
    decide
  have he : (end_keyword_attrs st kw).map Prod.fst
      = ["doc", "starttime", "endtime", "elapsedtime", "status",
         "args", "assign", "kwname", "libname", "type"] := by
    simp only [end_keyword_attrs, List.map_append, map_fst_get_attrs,
               List.map_cons, List.map_nil]
    decide
  rw [hs, he]
  decide

/-! ## C1 -/

/-- If one listener's method call raises while every other's returns
normally, the delivery loop over `pre ++ p :: post` still invokes every
adapter in order and the complete log output is exactly the failing
call's error record followed by its info record. -/
theorem deliver_each_one_raises (m : String) (a : List ArgVal)
    (pre post : List ListenerProxy) (p : ListenerProxy) (msg details : String)
    (hp : p.outcome m = .raises msg details)
    (hpre : ∀ q ∈ pre, q.outcome m = .ok)
    (hpost : ∀ q ∈ post, q.outcome m = .ok) :
    callsOf (deliver_each m a (pre ++ p :: post))
      = (pre ++ p :: post).map (fun q => OutEvt.call q.name m a) ∧
    logsOf (deliver_each m a (pre ++ p :: post))
      = [⟨Level.error, "Calling method '" ++ m ++ "' of listener '" ++ p.name
            ++ "' failed: " ++ msg⟩,
         ⟨Level.info, "Details:\n" ++ details⟩] := by
  refine ⟨callsOf_deliver_each _ _ _, ?_⟩
  rw [deliver_each_append, logsOf_append, logsOf_deliver_each_ok _ _ _ hpre]
  show [] ++ logsOf (deliver_each m a (p :: post)) = _
  rw [List.nil_append]
  show logsOf (call_method p m a ++ deliver_each m a post) = _
  rw [logsOf_append, logsOf_deliver_each_ok _ _ _ hpost,
      logsOf_call_method_raises _ _ _ _ _ hp, List.append_nil]

/-- `_get_keyword_type` is idempotent over its own state update: called
again with the same keyword and the same start flag it returns the same
type and leaves the state unchanged (only `setup_or_teardown_type` is
written, and the computed label reads only `running_test`). -/
theorem get_keyword_type_stable (st : Listeners) (kw : Kw) (b : Bool) :
    get_keyword_type (get_keyword_type st kw b).2 kw b
      = ((get_keyword_type st kw b).1, (get_keyword_type st kw b).2) := by
  by_cases h : kw.type = "kw"
  · simp [get_keyword_type, h]
  · simp [get_keyword_type, h, get_setup_or_teardown_type]

/-- Hence every iteration of the start_keyword loop builds the same
payload. -/
theorem start_keyword_attrs_stable (st : Listeners) (kw : Kw) :
    start_keyword_attrs (get_keyword_type st kw true).2 kw
      = start_keyword_attrs st kw := by
  simp [start_keyword_attrs, get_keyword_type_stable]

theorem end_keyword_attrs_stable (st : Listeners) (kw : Kw) :
    end_keyword_attrs (get_keyword_type st kw false).2 kw
      = end_keyword_attrs st kw := by
  simp [end_keyword_attrs, get_keyword_type_stable]

/-- The trace of the start_keyword loop: every adapter receives the same
call, computed from the state at loop entry. -/
theorem start_keyword_loop_out (kw : Kw) (ls : List ListenerProxy) (st : Listeners) :
    (start_keyword_loop kw ls st).2
      = deliver_each "start_keyword"
          [.str kw.name, .dict (start_keyword_attrs st kw)] ls := by
  induction ls generalizing st with
  | nil => rfl
  | cons p rest ih =>
      simp [start_keyword_loop, deliver_each, ih, start_keyword_attrs_stable]

theorem end_keyword_loop_out (kw : Kw) (ls : List ListenerProxy) (st : Listeners) :
    (end_keyword_loop kw ls st).2
      = deliver_each "end_keyword"
          [.str kw.name, .dict (end_keyword_attrs st kw)] ls := by
  induction ls generalizing st with
  | nil => rfl
  | cons p rest ih =>
      simp [end_keyword_loop, deliver_each, ih, end_keyword_attrs_stable]

/-- When the dynamically computed `'%s_import'` name is on the proxy
surface, the imported loop is a plain delivery loop raising nothing. -/
theorem imported_loop_resolves (mname nm : String) (attrs : List (String × AttrValue))
    (ls : List ListenerProxy)
    (hm : listener_proxy_methods.contains mname = true) :
    imported_loop mname nm attrs ls
      = (deliver_each mname [.str nm, .dict attrs] ls, none) := by
  induction ls with
  | nil => rfl
  | cons p rest ih =>
      have hmem : mname ∈ listener_proxy_methods := by simpa using hm
      simp [imported_loop, deliver_each, hmem, ih]

theorem output_file_loop_resolves (mname path : String) (ls : List ListenerProxy)
    (hm : listener_proxy_methods.contains mname = true) :
    output_file_loop mname path ls
      = (deliver_each mname [.str path] ls, none) := by
  induction ls with
  | nil => rfl
  | cons p rest ih =>
      have hmem : mname ∈ listener_proxy_methods := by simpa using hm
      simp [output_file_loop, deliver_each, hmem, ih]

/-- Every notification body, on a registry with adapters `ls` and an
event whose method resolves on the proxy surface (true of every fixed
method name, and of the dynamic `imported` / `output_file` names for all
the known subtypes), raises nothing and produces exactly the delivery
loop for the event's method and arguments. -/
theorem notify_body_delivers (ev : Event) (st : Listeners) (ls : List ListenerProxy)
    (hl : st.listeners = some ls)
    (hm : listener_proxy_methods.contains (eventMethod ev) = true) :
    (notify_body ev st).2.1 = deliver_each (eventMethod ev) (eventArgs ev st) ls ∧
    (notify_body ev st).2.2 = none := by
  cases ev with
  | start_suite s =>
      constructor <;> simp [notify_body, start_suite_body, hl, eventMethod, eventArgs]
  | end_suite s =>
      constructor <;> simp [notify_body, end_suite_body, hl, eventMethod, eventArgs]
  | start_test t =>
      constructor <;> simp [notify_body, start_test_body, hl, eventMethod, eventArgs]
  | end_test t =>
      constructor <;> simp [notify_body, end_test_body, hl, eventMethod, eventArgs]
  | start_keyword kw =>
      constructor <;>
        simp [notify_body, start_keyword_body, hl, eventMethod, eventArgs,
              start_keyword_loop_out]
  | end_keyword kw =>
      constructor <;>
        simp [notify_body, end_keyword_body, hl, eventMethod, eventArgs,
              end_keyword_loop_out]
  | log_message m =>
      constructor <;> simp [notify_body, log_message_body, hl, eventMethod, eventArgs]
  | message m =>
      constructor <;> simp [notify_body, message_body, hl, eventMethod, eventArgs]
  | imported it nm attrs =>
      have hm2 : listener_proxy_methods.contains (pyLower it ++ "_import") = true := hm
      constructor <;>
        simp [notify_body, imported_body, hl, eventMethod, eventArgs,
              imported_loop_resolves _ _ _ _ hm2]
  | output_file ft path =>
      have hm2 : listener_proxy_methods.contains (pyLower ft ++ "_file") = true := hm
      constructor <;>
        simp [notify_body, output_file_body, hl, eventMethod, eventArgs,
              output_file_loop_resolves _ _ _ hm2]
  | close =>
      constructor <;> simp [notify_body, close_body, hl, eventMethod, eventArgs]

/-- C1: for every registry whose adapters are `pre ++ p :: post` and
every notification event (its method resolving on the proxy surface, as
holds for all the spec's events), if `p`'s method raises while every
other adapter's returns normally, then no exception reaches the caller,
every adapter — including those after `p` — still receives the event's
call in registration order, and the complete log output is exactly one
error-severity record naming the method and the listener followed by one
info-severity record with the full details. -/
theorem c1_invocation_failure_isolated
    (pre post : List ListenerProxy) (p : ListenerProxy) (ev : Event)
    (st : Listeners) (msg details : String)
    (hl : st.listeners = some (pre ++ p :: post))
    (hm : listener_proxy_methods.contains (eventMethod ev) = true)
    (hp : p.outcome (eventMethod ev) = .raises msg details)
    (hpre : ∀ q ∈ pre, q.outcome (eventMethod ev) = .ok)
    (hpost : ∀ q ∈ post, q.outcome (eventMethod ev) = .ok) :
    (notify_pub ev ⟨false, st⟩).2.2 = none ∧
    callsOf (notify_pub ev ⟨false, st⟩).2.1
      = (pre ++ p :: post).map
          (fun q => OutEvt.call q.name (eventMethod ev) (eventArgs ev st)) ∧
    logsOf (notify_pub ev ⟨false, st⟩).2.1
      = [⟨Level.error, "Calling method '" ++ eventMethod ev ++ "' of listener '"
            ++ p.name ++ "' failed: " ++ msg⟩,
         ⟨Level.info, "Details:\n" ++ details⟩] ∧
    errorsOf (notify_pub ev ⟨false, st⟩).2.1
      = [⟨Level.error, "Calling method '" ++ eventMethod ev ++ "' of listener '"
            ++ p.name ++ "' failed: " ++ msg⟩] ∧
    infosOf (notify_pub ev ⟨false, st⟩).2.1
      = [⟨Level.info, "Details:\n" ++ details⟩] := by
  have hbd := notify_body_delivers ev st _ hl hm
  rcases hb : notify_body ev st with ⟨st2, o2, e2⟩
  have ho : o2 = deliver_each (eventMethod ev) (eventArgs ev st) (pre ++ p :: post) := by
    have h1 := hbd.1
    rw [hb] at h1
    exact h1
  have he : e2 = none := by
    have h2 := hbd.2
    rw [hb] at h2
    exact h2
  subst he
  subst ho
  have hrun := avoid_recursion_run (notify_body ev) ⟨false, st⟩ rfl st2 _ hb
  have hout : (notify_pub ev ⟨false, st⟩).2.1
      = deliver_each (eventMethod ev) (eventArgs ev st) (pre ++ p :: post) := by
    rw [notify_pub, hrun]
  have hexc : (notify_pub ev ⟨false, st⟩).2.2 = none := by
    rw [notify_pub, hrun]
  obtain ⟨hcalls, hlogs⟩ := deliver_each_one_raises (eventMethod ev) (eventArgs ev st)
    pre post p msg details hp hpre hpost
  refine ⟨hexc, ?_, ?_, ?_, ?_⟩
  · rw [hout]
    exact hcalls
  · rw [hout]
    exact hlogs
  · rw [errorsOf, hout, hlogs]
    simp
  · rw [infosOf, hout, hlogs]
    simp

/-- C1 witness: the start_test event on a two-listener registry in which
the first listener's start_test raises; the second still receives the
event and exactly one error record is produced. -/
theorem c1_witness :
    (notify_pub (.start_test ⟨"T", false, none, fun _ => .str "v"⟩)
        ⟨false, ⟨some
          [⟨"Bad", 2, fun m => if m = "start_test" then .raises "boom" "tb" else .ok⟩,
           ⟨"Good", 2, fun _ => .ok⟩], false, none⟩⟩).2.2 = none ∧
    callsOf (notify_pub (.start_test ⟨"T", false, none, fun _ => .str "v"⟩)
        ⟨false, ⟨some
          [⟨"Bad", 2, fun m => if m = "start_test" then .raises "boom" "tb" else .ok⟩,
           ⟨"Good", 2, fun _ => .ok⟩], false, none⟩⟩).2.1
      = [OutEvt.call "Bad" "start_test"
           [.str "T", .dict (start_test_attrs ⟨"T", false, none, fun _ => .str "v"⟩)],
         OutEvt.call "Good" "start_test"
           [.str "T", .dict (start_test_attrs ⟨"T", false, none, fun _ => .str "v"⟩)]] ∧
    errorsOf (notify_pub (.start_test ⟨"T", false, none, fun _ => .str "v"⟩)
        ⟨false, ⟨some
          [⟨"Bad", 2, fun m => if m = "start_test" then .raises "boom" "tb" else .ok⟩,
           ⟨"Good", 2, fun _ => .ok⟩], false, none⟩⟩).2.1
      = [⟨Level.error, "Calling method 'start_test' of listener 'Bad' failed: boom"⟩] := by
  have h := c1_invocation_failure_isolated []
    [⟨"Good", 2, fun _ => .ok⟩]
    ⟨"Bad", 2, fun m => if m = "start_test" then .raises "boom" "tb" else .ok⟩
    (.start_test ⟨"T", false, none, fun _ => .str "v"⟩)
    ⟨some
       [⟨"Bad", 2, fun m => if m = "start_test" then .raises "boom" "tb" else .ok⟩,
        ⟨"Good", 2, fun _ => .ok⟩], false, none⟩
    "boom" "tb" rfl (by decide) (by decide) (by decide) (by decide)
  exact ⟨h.1, by simpa [eventMethod, eventArgs] using h.2.1,
         by simpa [eventMethod] using h.2.2.2.1⟩

/-! ## C4 -/

/-- C4: a notification entered while another notification on the same
registry instance is still executing (the guard flag is set) delivers to
zero adapters and raises no error — stated both for an arbitrary wrapped
body and for `log_message` specifically; and for the outermost call the
flag is false again on exit, no error is raised, every adapter was
invoked, and the next top-level notification delivers to every adapter
again. -/
theorem c4_nested_notification_suppressed (m m2 : Msg) (ls : List ListenerProxy)
    (st : Listeners) (hl : st.listeners = some ls) :
    (∀ (body : RState Listeners → RState Listeners × Out × Option PyExc)
       (s : RState Listeners), s.recursion = true →
         avoid_recursion body s = (s, [], none)) ∧
    log_message_pub m ⟨true, st⟩ = (⟨true, st⟩, [], none) ∧
    (log_message_pub m ⟨false, st⟩).1.recursion = false ∧
    (log_message_pub m ⟨false, st⟩).2.2 = none ∧
    callsOf (log_message_pub m ⟨false, st⟩).2.1
      = ls.map (fun p => OutEvt.call p.name "log_message"
          [.dict (create_msg_dict m)]) ∧
    callsOf (log_message_pub m2 ((log_message_pub m ⟨false, st⟩).1)).2.1
      = ls.map (fun p => OutEvt.call p.name "log_message"
          [.dict (create_msg_dict m2)]) := by
  have hbody : ∀ (m' : Msg), log_message_body m' st
      = (st, deliver_each "log_message" [.dict (create_msg_dict m')] ls, none) := by
    intro m'
    simp [log_message_body, hl]
  have hrun : ∀ (m' : Msg), log_message_pub m' ⟨false, st⟩
      = (⟨false, st⟩,
         deliver_each "log_message" [.dict (create_msg_dict m')] ls, none) := by
    intro m'
    rw [log_message_pub, avoid_recursion_run (log_message_body m') _ rfl _ _ (hbody m')]
  refine ⟨fun body s hs => avoid_recursion_blocked body s hs,
          avoid_recursion_blocked _ _ rfl, ?_, ?_, ?_, ?_⟩
  · rw [hrun]
  · rw [hrun]
  · rw [hrun]
    exact callsOf_deliver_each _ _ _
  · rw [hrun m, hrun m2]
    exact callsOf_deliver_each _ _ _

/-- C4 witness: with one adapter, a nested log_message delivers nothing,
while the outer and the following top-level log_message each deliver to
the adapter. -/
theorem c4_witness :
    log_message_pub ⟨"t1", "msg", "INFO", false⟩
        ⟨true, ⟨some [⟨"L", 2, fun _ => .ok⟩], false, none⟩⟩
      = (⟨true, ⟨some [⟨"L", 2, fun _ => .ok⟩], false, none⟩⟩, [], none) ∧
    callsOf (log_message_pub ⟨"t1", "msg", "INFO", false⟩
        ⟨false, ⟨some [⟨"L", 2, fun _ => .ok⟩], false, none⟩⟩).2.1
      = [OutEvt.call "L" "log_message"
           [.dict (create_msg_dict ⟨"t1", "msg", "INFO", false⟩)]] ∧
    callsOf (log_message_pub ⟨"t2", "msg2", "WARN", true⟩
        ((log_message_pub ⟨"t1", "msg", "INFO", false⟩
            ⟨false, ⟨some [⟨"L", 2, fun _ => .ok⟩], false, none⟩⟩).1)).2.1
      = [OutEvt.call "L" "log_message"
           [.dict (create_msg_dict ⟨"t2", "msg2", "WARN", true⟩)]] := by
  have h := c4_nested_notification_suppressed ⟨"t1", "msg", "INFO", false⟩
    ⟨"t2", "msg2", "WARN", true⟩ [⟨"L", 2, fun _ => .ok⟩]
    ⟨some [⟨"L", 2, fun _ => .ok⟩], false, none⟩ rfl
  exact ⟨h.2.1, by simpa using h.2.2.2.2.1, by simpa using h.2.2.2.2.2⟩

/-! ## C10 -/

/-- C10: when an exception escapes the body of a wrapped public
notification method, the recursion flag is left set; every subsequent
wrapped notification on that state then returns immediately — no adapter
invocations, no log records, no state change — for the rest of the run. -/
theorem c10_escaped_exception_wedges_registry
    (f : Listeners → Listeners × Out × Option PyExc) (s : RState Listeners)
    (s' : RState Listeners) (o : Out) (e : PyExc)
    (hrun : avoid_recursion (liftBody f) s = (s', o, some e)) :
    s'.recursion = true ∧
    ∀ bs, run_notifications bs s' = (s', []) := by
  have hflag : s'.recursion = true := by
    by_cases hr : s.recursion
    · rw [avoid_recursion_blocked _ _ hr] at hrun
      simp at hrun
    · rcases hb : f s.inner with ⟨st2, o2, eo⟩
      cases eo with
      | none =>
          rw [avoid_recursion_run f s (by simpa using hr) st2 o2 hb] at hrun
          simp at hrun
      | some e2 =>
          rw [avoid_recursion_raises f s (by simpa using hr) st2 o2 e2 hb] at hrun
          simp only [Prod.mk.injEq] at hrun
          rw [← hrun.1]
  exact ⟨hflag, fun bs => run_notifications_blocked bs s' hflag⟩

/-- C10 witness: an `imported` notification with an unknown import type
raises `AttributeError` through the wrapper (the proxy has no
`unknown_import` attribute); afterwards the flag is stuck and a
subsequent log_message delivers to zero adapters. -/
theorem c10_witness :
    (avoid_recursion (liftBody (imported_body "Unknown" "x" []))
        ⟨false, ⟨some [⟨"L", 2, fun _ => .ok⟩], false, none⟩⟩).1.recursion = true ∧
    run_notifications [liftBody (log_message_body ⟨"ts", "m", "INFO", false⟩)]
        ((avoid_recursion (liftBody (imported_body "Unknown" "x" []))
            ⟨false, ⟨some [⟨"L", 2, fun _ => .ok⟩], false, none⟩⟩).1)
      = ((avoid_recursion (liftBody (imported_body "Unknown" "x" []))
            ⟨false, ⟨some [⟨"L", 2, fun _ => .ok⟩], false, none⟩⟩).1, []) := by
  have h := c10_escaped_exception_wedges_registry (imported_body "Unknown" "x" [])
    ⟨false, ⟨some [⟨"L", 2, fun _ => .ok⟩], false, none⟩⟩
    ⟨true, ⟨some [⟨"L", 2, fun _ => .ok⟩], false, none⟩⟩ [] .attributeError rfl
  exact ⟨h.1, h.2 _⟩

/-! ## C3 -/

/-- C3: after start_test, a setup-typed keyword starts and stores the
pending type "Test Setup"; a plain nested keyword's payload reports type
"Test Setup"; when the outer setup keyword ends the pending type is
cleared; and after end_test a subsequent top-level plain keyword's
payload reports type "Keyword".  Stated on a one-adapter registry in its
freshly constructed state. -/
theorem c3_setup_type_propagation (p : ListenerProxy) (t : Test) (kwS kwN kwP : Kw)
    (hS : kwS.type = "setup") (hN : kwN.type = "kw") (hP : kwP.type = "kw") :
    callsOf (start_keyword_pub kwN
        ((start_keyword_pub kwS
            ((start_test_pub t ⟨false, ⟨some [p], false, none⟩⟩).1)).1)).2.1
      = [OutEvt.call p.name "start_keyword"
          [.str kwN.name,
           .dict (get_attrs kwN.attr start_attrs kw_extra_attrs
              ++ [("type", AttrValue.str "Test Setup")])]] ∧
    ((end_keyword_pub kwS
        ((end_keyword_pub kwN
            ((start_keyword_pub kwN
                ((start_keyword_pub kwS
                    ((start_test_pub t
                        ⟨false, ⟨some [p], false, none⟩⟩).1)).1)).1)).1)).1).inner.setup_or_teardown_type
      = none ∧
    callsOf (start_keyword_pub kwP
        ((end_test_pub t
            ((end_keyword_pub kwS
                ((end_keyword_pub kwN
                    ((start_keyword_pub kwN
                        ((start_keyword_pub kwS
                            ((start_test_pub t
                                ⟨false, ⟨some [p], false, none⟩⟩).1)).1)).1)).1)).1)).1)).2.1
      = [OutEvt.call p.name "start_keyword"
          [.str kwP.name,
           .dict (get_attrs kwP.attr start_attrs kw_extra_attrs
              ++ [("type", AttrValue.str "Keyword")])]] := by
  obtain ⟨nS, tyS, aS⟩ := kwS
  obtain ⟨nN, tyN, aN⟩ := kwN
  obtain ⟨nP, tyP, aP⟩ := kwP
  replace hS : tyS = "setup" := hS
  replace hN : tyN = "kw" := hN
  replace hP : tyP = "kw" := hP
  subst hS
  subst hN
  subst hP
  refine ⟨?_, rfl, ?_⟩
  · show callsOf (call_method p "start_keyword"
        [.str nN, .dict (get_attrs aN start_attrs kw_extra_attrs
            ++ [("type", AttrValue.str "Test Setup")])] ++ []) = _
    rw [List.append_nil, callsOf_call_method]
  · show callsOf (call_method p "start_keyword"
        [.str nP, .dict (get_attrs aP start_attrs kw_extra_attrs
            ++ [("type", AttrValue.str "Keyword")])] ++ []) = _
    rw [List.append_nil, callsOf_call_method]

/-- C3 witness: the event sequence run with one concrete adapter, a
concrete test and concrete keywords. -/
theorem c3_witness :
    callsOf (start_keyword_pub ⟨"Lib.Nested", "kw", fun _ => .str "v"⟩
        ((start_keyword_pub ⟨"Suite.Setup", "setup", fun _ => .str "v"⟩
            ((start_test_pub ⟨"T", false, none, fun _ => .str "v"⟩
                ⟨false, ⟨some [⟨"L", 2, fun _ => .ok⟩], false, none⟩⟩).1)).1)).2.1
      = [OutEvt.call "L" "start_keyword"
          [.str "Lib.Nested",
           .dict (get_attrs (fun _ => .str "v") start_attrs kw_extra_attrs
              ++ [("type", AttrValue.str "Test Setup")])]] ∧
    ((end_keyword_pub ⟨"Suite.Setup", "setup", fun _ => .str "v"⟩
        ((end_keyword_pub ⟨"Lib.Nested", "kw", fun _ => .str "v"⟩
            ((start_keyword_pub ⟨"Lib.Nested", "kw", fun _ => .str "v"⟩
                ((start_keyword_pub ⟨"Suite.Setup", "setup", fun _ => .str "v"⟩
                    ((start_test_pub ⟨"T", false, none, fun _ => .str "v"⟩
                        ⟨false, ⟨some [⟨"L", 2, fun _ => .ok⟩],
                         false, none⟩⟩).1)).1)).1)).1)).1).inner.setup_or_teardown_type
      = none ∧
    callsOf (start_keyword_pub ⟨"Lib.Plain", "kw", fun _ => .str "v"⟩
        ((end_test_pub ⟨"T", false, none, fun _ => .str "v"⟩
            ((end_keyword_pub ⟨"Suite.Setup", "setup", fun _ => .str "v"⟩
                ((end_keyword_pub ⟨"Lib.Nested", "kw", fun _ => .str "v"⟩
                    ((start_keyword_pub ⟨"Lib.Nested", "kw", fun _ => .str "v"⟩
                        ((start_keyword_pub ⟨"Suite.Setup", "setup", fun _ => .str "v"⟩
                            ((start_test_pub ⟨"T", false, none, fun _ => .str "v"⟩
                                ⟨false, ⟨some [⟨"L", 2, fun _ => .ok⟩],
                                 false, none⟩⟩).1)).1)).1)).1)).1)).1)).2.1
      = [OutEvt.call "L" "start_keyword"
          [.str "Lib.Plain",
           .dict (get_attrs (fun _ => .str "v") start_attrs kw_extra_attrs
              ++ [("type", AttrValue.str "Keyword")])]] :=
  c3_setup_type_propagation ⟨"L", 2, fun _ => .ok⟩
    ⟨"T", false, none, fun _ => .str "v"⟩
    ⟨"Suite.Setup", "setup", fun _ => .str "v"⟩
    ⟨"Lib.Nested", "kw", fun _ => .str "v"⟩
    ⟨"Lib.Plain", "kw", fun _ => .str "v"⟩
    rfl rfl rfl

/-! ## C9 -/

/-- C9 exhibits a divergence between the code and the claim: with an
*empty* spec list the registry is indeed inert (emptiness check false,
start_suite delivers nothing and raises nothing), but when constructed
from an *absent* (`None`) spec sequence, `__init__` never assigns
`self._listeners`, so the emptiness check and every notification raise
`AttributeError` instead of being no-ops (and the failed notification
additionally leaves the recursion flag set). -/
theorem c9_absent_specs_registry_broken :
    nonzero ((listeners_init (some [])).1.inner) = .ok false ∧
    (start_suite_pub ⟨"S", [], [], 0, none, "st", fun _ => .str "v"⟩
        (listeners_init (some [])).1).2.1 = [] ∧
    (start_suite_pub ⟨"S", [], [], 0, none, "st", fun _ => .str "v"⟩
        (listeners_init (some [])).1).2.2 = none ∧
    nonzero ((listeners_init none).1.inner) = .error .attributeError ∧
    (start_suite_pub ⟨"S", [], [], 0, none, "st", fun _ => .str "v"⟩
        (listeners_init none).1).2.2 = some .attributeError ∧
    (start_suite_pub ⟨"S", [], [], 0, none, "st", fun _ => .str "v"⟩
        (listeners_init none).1).1.recursion = true :=
  ⟨rfl, rfl, rfl, rfl, rfl, rfl⟩
